import Mathlib

/-!
Verification development for the docker-health-monitor engine.

The definitions below are a shallow embedding of the Rust sources:
`src/container_health.rs` (health classifier), `src/meter_attributes.rs`
(label projection), and `src/monitor.rs` (metric snapshot builder and
remediation loop).  The Docker daemon is modelled as an oracle of
explicit response functions, since list/inspect/restart are external
remote calls.  Fallible paths follow the Rust `?` propagation through
`Except`.
-/

set_option autoImplicit false

/-- Embedding of bollard's `HealthStatusEnum`: the closed set of health
status values the runtime can report inside a health block. -/
inductive HealthStatusEnum where
  | EMPTY
  | NONE
  | STARTING
  | HEALTHY
  | UNHEALTHY
deriving DecidableEq, Repr, Fintype

/-- Embedding of bollard's `Health`: only the `status` field is read by
the program (`From<Option<Health>> for ContainerHealth`). -/
structure Health where
  status : Option HealthStatusEnum
deriving DecidableEq, Repr

/-- Embedding of `ContainerHealth` from `src/container_health.rs`: a
classification wrapping an optional raw status. -/
structure ContainerHealth where
  container_health_status : Option HealthStatusEnum
deriving DecidableEq, Repr, Fintype

/-- Embedding of `ContainerHealth::values` from `src/container_health.rs`:
the five wrapped status values followed by the wrapped-absent value. -/
def ContainerHealth.values : List ContainerHealth :=
  ([HealthStatusEnum.EMPTY, HealthStatusEnum.NONE, HealthStatusEnum.STARTING,
    HealthStatusEnum.HEALTHY, HealthStatusEnum.UNHEALTHY].map
      (fun s => { container_health_status := some s })) ++
  [{ container_health_status := none }]

/-- Embedding of `impl From<Option<Health>> for ContainerHealth` from
`src/container_health.rs`: `value.and_then(|health| health.status)`. -/
def containerHealthFrom (value : Option Health) : ContainerHealth :=
  { container_health_status := value.bind (fun health => health.status) }

/-- The spec's `Unknown` classification: no inspectable health block. -/
def ContainerHealth.unknown : ContainerHealth :=
  { container_health_status := none }

/-- The spec's `NoHealthCheck` classification: runtime reports status
`none` (no check configured). -/
def ContainerHealth.noHealthCheck : ContainerHealth :=
  { container_health_status := some HealthStatusEnum.NONE }

/-- The spec's `Empty` classification. -/
def ContainerHealth.emptyStatus : ContainerHealth :=
  { container_health_status := some HealthStatusEnum.EMPTY }

/-- The spec's `Starting` classification. -/
def ContainerHealth.starting : ContainerHealth :=
  { container_health_status := some HealthStatusEnum.STARTING }

/-- The spec's `Healthy` classification. -/
def ContainerHealth.healthy : ContainerHealth :=
  { container_health_status := some HealthStatusEnum.HEALTHY }

/-- The spec's `Unhealthy` classification. -/
def ContainerHealth.unhealthy : ContainerHealth :=
  { container_health_status := some HealthStatusEnum.UNHEALTHY }

/-- Embedding of `impl From<ContainerHealth> for Value` from
`src/container_health.rs`: render the wrapped status with its runtime
display string, and the absent case as the literal string `null`. -/
def ContainerHealth.toValue (value : ContainerHealth) : String :=
  match value.container_health_status with
  | some HealthStatusEnum.EMPTY => ""
  | some HealthStatusEnum.NONE => "none"
  | some HealthStatusEnum.STARTING => "starting"
  | some HealthStatusEnum.HEALTHY => "healthy"
  | some HealthStatusEnum.UNHEALTHY => "unhealthy"
  | none => "null"

/-- Embedding of bollard's `ContainerSummary`, restricted to the fields
this program reads: `id`, `names`, `image` and the runtime label map
(a `HashMap<String, String>` modelled as an association list in
insertion order). -/
structure ContainerSummary where
  id : Option String
  names : Option (List String)
  image : Option String
  labels : Option (List (String × String))
deriving DecidableEq, Repr

/-- Embedding of the name derivation in
`impl MeterAttributes for ContainerSummary` from
`src/meter_attributes.rs`:
`name.strip_prefix('/').map_or(name.clone(), String::from)` drops one
leading slash when present and leaves the name untouched otherwise. -/
def stripLeadingSlash (name : String) : String :=
  match name.data with
  | '/' :: rest => { data := rest }
  | _ => name

/-- Embedding of `ContainerSummary::attributes` from
`src/meter_attributes.rs`: the optional `id`, first-name-derived `name`
and `image` attributes are flattened in that order, then one
`label_`-prefixed attribute per runtime label map entry is appended. -/
def ContainerSummary.attributes (c : ContainerSummary) : List (String × String) :=
  let id := c.id.map (fun v => ("id", v))
  let name :=
    ((c.names.bind (fun names => names.head?)).map
      (fun name => stripLeadingSlash name)).map (fun v => ("name", v))
  let image := c.image.map (fun v => ("image", v))
  let labelAttrs :=
    (c.labels.map (fun labels =>
      labels.map (fun kv => ("label_" ++ kv.1, kv.2)))).getD []
  ([id, name, image].filterMap (fun x => x)) ++ labelAttrs

/-- A container carrying one runtime label map entry, used to examine
the projection of label map entries into the attribute list. -/
def labelledContainer : ContainerSummary :=
  { id := some "cid", names := some ["/web-1"], image := some "img",
    labels := some [("foo", "bar")] }

/-- Embedding of bollard's list-containers options as produced by
`ListContainersOptionsBuilder`: the include-all flag and the server-side
filter map. -/
structure ListContainersOptions where
  all : Bool
  filters : List (String × List String)
deriving DecidableEq, Repr

/-- Options built in `DockerHealthMonitor::check_health_state`:
`ListContainersOptionsBuilder::new().all(true).build()`. -/
def listAllOptions : ListContainersOptions :=
  { all := true, filters := [] }

/-- Options built in `DockerHealthMonitor::restart_unhealthy_containers`:
`all(true)` plus the server-side filter `health=[unhealthy]`. -/
def unhealthyListOptions : ListContainersOptions :=
  { all := true, filters := [("health", ["unhealthy"])] }

/-- Embedding of bollard's `ContainerState`, restricted to the `health`
field read by `DockerHealthMonitor::health_state`. -/
structure ContainerState where
  health : Option Health
deriving DecidableEq, Repr

/-- Embedding of bollard's `ContainerInspectResponse`, restricted to the
`state` field read by `DockerHealthMonitor::health_state`. -/
structure ContainerInspectResponse where
  state : Option ContainerState
deriving DecidableEq, Repr

/-- The Docker daemon as an oracle: the three remote calls the program
performs, each fallible.  This models the external runtime-client
capability of the spec's §6. -/
structure Docker where
  list_containers : ListContainersOptions → Except String (List ContainerSummary)
  inspect_container : String → Except String ContainerInspectResponse
  restart_container : String → Except String Unit

/-- Modelled from the spec: `ContainerSummaryLabels` and its
`From<ContainerSummary>` conversion belong to this repository but are
not among the provided sources (only `src/monitor.rs` uses them).  Per
spec §3 and §4.2 the label set carries the four dimensions id, image,
name and health; the name is derived as in the attribute projection and
the health dimension is left unset by the conversion (the snapshot
builder overwrites it per candidate classification). -/
structure ContainerSummaryLabels where
  id : Option String
  image : Option String
  name : Option String
  health : Option String
deriving DecidableEq, Repr

/-- Modelled from the spec: the `From<ContainerSummary>` conversion used
as `container.into()` in `src/monitor.rs`, following §4.2's label
projection contract. -/
def ContainerSummaryLabels.ofSummary (c : ContainerSummary) : ContainerSummaryLabels :=
  { id := c.id
    image := c.image
    name := (c.names.bind (fun names => names.head?)).map
      (fun name => stripLeadingSlash name)
    health := none }

/-- The three counter families registered in `DockerHealthMonitor::new`:
`errors` (plain counter), `restarts` and `restart_failures` (families
keyed by the label set). -/
structure Counters where
  errors : Nat
  restarts : ContainerSummaryLabels → Nat
  restart_failures : ContainerSummaryLabels → Nat

/-- Increment of the `restarts` family at one label set
(`restart_counter.get_or_create(..).inc()`). -/
def Counters.incRestart (s : Counters) (l : ContainerSummaryLabels) : Counters :=
  { s with restarts := fun x => if x = l then s.restarts x + 1 else s.restarts x }

/-- Increment of the `restart_failures` family at one label set
(`failed_restart_counter.get_or_create(..).inc()`). -/
def Counters.incRestartFailure (s : Counters) (l : ContainerSummaryLabels) : Counters :=
  { s with restart_failures :=
      fun x => if x = l then s.restart_failures x + 1 else s.restart_failures x }

/-- All counters at zero, their state right after registration. -/
def counters0 : Counters :=
  { errors := 0, restarts := fun _ => 0, restart_failures := fun _ => 0 }

/-- Embedding of `DockerHealthMonitor::health_state`: inspect the
container, require a state block, classify its health field. -/
def healthState (d : Docker) (container_id : String) : Except String ContainerHealth :=
  match d.inspect_container container_id with
  | Except.error e => Except.error e
  | Except.ok container_inspect =>
    match container_inspect.state with
    | none => Except.error ("Failed to get state from container " ++ container_id)
    | some container_state => Except.ok (containerHealthFrom container_state.health)

/-- Embedding of the per-container loop of
`DockerHealthMonitor::check_health_state`: each container must have an
id and a resolvable health state; the first failure aborts the batch
(the Rust `?` operator). -/
def resolveContainers (d : Docker) :
    List ContainerSummary → Except String (List (ContainerSummary × ContainerHealth))
  | [] => Except.ok []
  | c :: rest =>
    match c.id with
    | none => Except.error "Failed to get ID from container"
    | some container_id =>
      match healthState d container_id with
      | Except.error e => Except.error e
      | Except.ok h =>
        match resolveContainers d rest with
        | Except.error e => Except.error e
        | Except.ok tail => Except.ok ((c, h) :: tail)

/-- The snapshot build of `DockerHealthMonitor::check_health_state`
before gauge emission: enumerate all containers, resolve each one's
classification. -/
def buildSnapshot (d : Docker) :
    Except String (List (ContainerSummary × ContainerHealth)) :=
  match d.list_containers listAllOptions with
  | Except.error e => Except.error e
  | Except.ok containers => resolveContainers d containers

/-- The six gauge observations emitted for one container in
`check_health_state`: one per value of `ContainerHealth::values()`, the
label set carrying that candidate's rendered health value, and the gauge
set to `(resolved == candidate).into()`. -/
def containerObservations (c : ContainerSummary) (resolved : ContainerHealth) :
    List (ContainerSummaryLabels × Int) :=
  ContainerHealth.values.map (fun health_status =>
    ({ ContainerSummaryLabels.ofSummary c with health := some health_status.toValue },
     if resolved = health_status then (1 : Int) else 0))

/-- Embedding of `DockerHealthMonitor::check_health_state` as a whole:
on success the full list of gauge observations, on any step failure the
error (nothing from the local family is encoded). -/
def checkHealthState (d : Docker) :
    Except String (List (ContainerSummaryLabels × Int)) :=
  match buildSnapshot d with
  | Except.error e => Except.error e
  | Except.ok pairs =>
    Except.ok ((pairs.map (fun p => containerObservations p.1 p.2)).flatten)

/-- Embedding of `impl Collector for DockerHealthMonitorCollector`:
drive `check_health_state` to completion; on failure publish nothing and
increment the error counter once. -/
def collectorEncode (d : Docker) (s : Counters) :
    List (ContainerSummaryLabels × Int) × Counters :=
  match checkHealthState d with
  | Except.ok observations => (observations, s)
  | Except.error _ => ([], { s with errors := s.errors + 1 })

/-- Observable remote actions of the remediation loop: one list query
or one restart call. -/
inductive DockerAction where
  | listing (options : ListContainersOptions)
  | restart (id : String)
deriving DecidableEq, Repr

/-- Embedding of the per-container loop of
`DockerHealthMonitor::restart_unhealthy_containers`: a container with an
id gets a restart call — success increments `restarts` and the loop
continues, failure propagates immediately (the Rust `?` operator); a
container without an id increments `restart_failures` and the loop
continues without any call. -/
def restartLoop (d : Docker) :
    List ContainerSummary → Counters → List DockerAction →
      Except String Unit × Counters × List DockerAction
  | [], s, acts => (Except.ok (), s, acts)
  | c :: rest, s, acts =>
    match c.id with
    | some id =>
      match d.restart_container id with
      | Except.ok _ =>
        restartLoop d rest (s.incRestart (ContainerSummaryLabels.ofSummary c))
          (acts ++ [DockerAction.restart id])
      | Except.error e => (Except.error e, s, acts ++ [DockerAction.restart id])
    | none =>
      restartLoop d rest (s.incRestartFailure (ContainerSummaryLabels.ofSummary c)) acts

/-- Embedding of `DockerHealthMonitor::restart_unhealthy_containers`:
list with the unhealthy filter, then run the restart loop. -/
def restartUnhealthyContainers (d : Docker) (s : Counters) :
    Except String Unit × Counters × List DockerAction :=
  match d.list_containers unhealthyListOptions with
  | Except.error e => (Except.error e, s, [DockerAction.listing unhealthyListOptions])
  | Except.ok unhealthy_containers =>
    match restartLoop d unhealthy_containers s [] with
    | (r, s', acts) => (r, s', DockerAction.listing unhealthyListOptions :: acts)

/-- One tick of the loop body in `DockerHealthMonitor::run`: a failing
`restart_unhealthy_containers` increments the error counter and the
loop waits for the next tick. -/
def runTick (d : Docker) (s : Counters) : Counters × List DockerAction :=
  match restartUnhealthyContainers d s with
  | (Except.ok _, s', acts) => (s', acts)
  | (Except.error _, s', acts) => ({ s' with errors := s'.errors + 1 }, acts)

/-- Embedding of `DockerHealthMonitor::run` observed for a finite number
of timer ticks: with no restart interval configured the function returns
at once and no tick ever runs. -/
def runTicks (d : Docker) (restart_interval : Option Nat) :
    Nat → Counters → Counters × List DockerAction
  | 0, s => (s, [])
  | Nat.succ n, s =>
    match restart_interval with
    | none => (s, [])
    | some _ =>
      let t := runTick d s
      let r := runTicks d restart_interval n t.1
      (r.1, t.2 ++ r.2)

/-- The engine state of `DockerHealthMonitor`: the shared docker handle
and the optional restart interval. -/
structure DockerHealthMonitor where
  docker : Docker
  restart_interval : Option Nat

/-- The engine's remediation loop over a finite number of ticks. -/
def DockerHealthMonitor.run (m : DockerHealthMonitor) (ticks : Nat) (s : Counters) :
    Counters × List DockerAction :=
  runTicks m.docker m.restart_interval ticks s

/-- The engine's scrape callback: the registered collector reads only
the docker handle, never the restart interval. -/
def DockerHealthMonitor.scrape (m : DockerHealthMonitor) (s : Counters) :
    List (ContainerSummaryLabels × Int) × Counters :=
  collectorEncode m.docker s

/-- Modelled from the spec: the runtime-side container entry of the
external list capability (§6), carrying its running state and current
health status, used to give semantics to server-side list filtering.
The Docker list endpoint without the include-all flag returns only
running containers; with it, stopped containers as well. -/
structure DaemonContainer where
  running : Bool
  health_status : String
  summary : ContainerSummary
deriving DecidableEq, Repr

/-- Modelled from the spec: a daemon container matches one server-side
filter; the only filter this program sends is the health filter. -/
def filterMatches (c : DaemonContainer) (key : String) (vals : List String) : Bool :=
  if key = "health" then vals.contains c.health_status else true

/-- Modelled from the spec: the daemon's list selection — the container
is returned when it is running or the include-all flag is set, and it
matches every server-side filter. -/
def listSelects (o : ListContainersOptions) (c : DaemonContainer) : Bool :=
  (o.all || c.running) && o.filters.all (fun kv => filterMatches c kv.1 kv.2)

/-- A container record malformed per the snapshot builder: missing id,
failing inspect, or missing state block. -/
def badContainer (d : Docker) (c : ContainerSummary) : Prop :=
  c.id = none ∨ ∃ i, c.id = some i ∧
    ((∃ e, d.inspect_container i = Except.error e) ∨
     (∃ r, d.inspect_container i = Except.ok r ∧ r.state = none))

/-- Some step of the snapshot build fails: the enumeration itself, or
some enumerated container is malformed. -/
def snapshotStepFails (d : Docker) : Prop :=
  (∃ e, d.list_containers listAllOptions = Except.error e) ∨
  (∃ cs, d.list_containers listAllOptions = Except.ok cs ∧
    ∃ c ∈ cs, badContainer d c)

/-- A well-formed container used by concrete scenarios. -/
def healthyContainer : ContainerSummary :=
  { id := some "cid", names := some ["/web-1"], image := some "img",
    labels := none }

/-- A docker oracle with one healthy container. -/
def healthyDocker : Docker :=
  { list_containers := fun _ => Except.ok [healthyContainer]
    inspect_container := fun _ => Except.ok
      { state := some { health := some { status := some HealthStatusEnum.HEALTHY } } }
    restart_container := fun _ => Except.ok () }

/-- A docker oracle whose list call always fails. -/
def failingListDocker : Docker :=
  { list_containers := fun _ => Except.error "socket error"
    inspect_container := fun _ => Except.error "socket error"
    restart_container := fun _ => Except.error "socket error" }

/-- First unhealthy container of the failing-restart scenario. -/
def unhealthyA : ContainerSummary :=
  { id := some "a", names := some ["/a"], image := some "img", labels := none }

/-- Second unhealthy container of the failing-restart scenario. -/
def unhealthyB : ContainerSummary :=
  { id := some "b", names := some ["/b"], image := some "img", labels := none }

/-- A docker oracle listing two unhealthy containers where restarting
the first fails and restarting the second would succeed. -/
def failingRestartDocker : Docker :=
  { list_containers := fun _ => Except.ok [unhealthyA, unhealthyB]
    inspect_container := fun _ => Except.error "unused"
    restart_container := fun id =>
      if id = "a" then Except.error "restart failed" else Except.ok () }

/-- A listed container that carries no id. -/
def idlessContainer : ContainerSummary :=
  { id := none, names := some ["/nameless"], image := none, labels := none }

/-- A stopped container currently reported unhealthy by the daemon. -/
def stoppedUnhealthy : DaemonContainer :=
  { running := false, health_status := "unhealthy",
    summary := { id := some "x", names := none, image := none, labels := none } }

/-- A `label_`-prefixed key is never one of the fixed attribute keys. -/
theorem label_key_ne_fixed (k : String) :
    "label_" ++ k ≠ "id" ∧ "label_" ++ k ≠ "name" ∧ "label_" ++ k ≠ "image" := by
  have h1 : "label_".length = 6 := rfl
  have h2 : "id".length = 2 := rfl
  have h3 : "name".length = 4 := rfl
  have h4 : "image".length = 5 := rfl
  refine ⟨?_, ?_, ?_⟩ <;>
  · intro h
    have hlen := congrArg String.length h
    rw [String.length_append] at hlen
    omega

/-- C2 counterexample: a health block that is present but whose status
field is absent classifies as `Unknown`, not as `NoHealthCheck` as the
claim states. -/
theorem containerHealthFrom_present_statusless_not_noHealthCheck :
    containerHealthFrom (some { status := none }) = ContainerHealth.unknown ∧
    containerHealthFrom (some { status := none }) ≠ ContainerHealth.noHealthCheck := by
  refine ⟨rfl, ?_⟩
  decide

/-- C2 (amended): the classifier is a total function; an absent health
block classifies as `Unknown`, a present block with an absent status also
classifies as `Unknown`, and the five recognized statuses map 1:1 onto
the five remaining classifications, all six of which are pairwise
distinct. -/
theorem containerHealthFrom_classification :
    containerHealthFrom none = ContainerHealth.unknown ∧
    containerHealthFrom (some { status := none }) = ContainerHealth.unknown ∧
    containerHealthFrom (some { status := some HealthStatusEnum.EMPTY }) =
      ContainerHealth.emptyStatus ∧
    containerHealthFrom (some { status := some HealthStatusEnum.NONE }) =
      ContainerHealth.noHealthCheck ∧
    containerHealthFrom (some { status := some HealthStatusEnum.STARTING }) =
      ContainerHealth.starting ∧
    containerHealthFrom (some { status := some HealthStatusEnum.HEALTHY }) =
      ContainerHealth.healthy ∧
    containerHealthFrom (some { status := some HealthStatusEnum.UNHEALTHY }) =
      ContainerHealth.unhealthy ∧
    [ContainerHealth.unknown, ContainerHealth.noHealthCheck,
     ContainerHealth.emptyStatus, ContainerHealth.starting,
     ContainerHealth.healthy, ContainerHealth.unhealthy].Pairwise (· ≠ ·) := by
  refine ⟨rfl, rfl, rfl, rfl, rfl, rfl, rfl, ?_⟩
  decide

/-- Attributes derived from the runtime label map never use the key
`name`, so filtering the attribute list by that key ignores them. -/
theorem labelAttrs_filter_name (ls : List (String × String)) :
    (ls.map (fun kv => ("label_" ++ kv.1, kv.2))).filter
      (fun kv => kv.1 == "name") = [] := by
  induction ls with
  | nil => rfl
  | cons hd tl ih =>
    have hne : ("label_" ++ hd.1 == "name") = false := by
      have := (label_key_ne_fixed hd.1).2.1
      simp [this]
    simp [List.filter_cons, hne, ih]

/-- C8: the `name` attribute is the first element of the names list with
exactly one leading slash stripped when present; a container with no
names (or an empty names list) yields no `name` attribute at all; in
particular a first name `/web-1` projects to `web-1` and a doubly
slashed first name keeps its second slash. -/
theorem attributes_name_derivation (c : ContainerSummary) :
    (∀ n ns, c.names = some (n :: ns) →
      c.attributes.filter (fun kv => kv.1 == "name") =
        [("name", stripLeadingSlash n)]) ∧
    ((c.names = none ∨ c.names = some []) →
      c.attributes.filter (fun kv => kv.1 == "name") = []) ∧
    ({ id := none, names := some ["/web-1"], image := none,
       labels := none } : ContainerSummary).attributes = [("name", "web-1")] ∧
    ({ id := none, names := some ["//a"], image := none,
       labels := none } : ContainerSummary).attributes = [("name", "/a")] := by
  obtain ⟨id, names, image, labels⟩ := c
  refine ⟨?_, ?_, by decide, by decide⟩
  · intro n ns h
    subst h
    rcases id with _ | i <;> rcases image with _ | img <;>
      rcases labels with _ | ls <;>
      simp [ContainerSummary.attributes, stripLeadingSlash,
        labelAttrs_filter_name, List.filter_append]
  · rintro (h | h) <;> subst h <;>
      rcases id with _ | i <;> rcases image with _ | img <;>
      rcases labels with _ | ls <;>
      simp [ContainerSummary.attributes, labelAttrs_filter_name,
        List.filter_append]

/-- C8 witness: a concrete container whose first name carries one
leading slash projects exactly one `name` attribute with that slash
stripped. -/
theorem attributes_name_derivation_witness :
    labelledContainer.attributes.filter (fun kv => kv.1 == "name") =
      [("name", stripLeadingSlash "/web-1")] :=
  (attributes_name_derivation labelledContainer).1 "/web-1" [] rfl

/-- C5 counterexample: a runtime label map entry `(foo, bar)` is
projected into the attribute list (as `label_foo`), and the attribute
list carries no `health` dimension at all, refuting the claim that the
projection contains only the four fixed dimensions and never projects
label map entries. -/
theorem attributes_project_runtime_labels :
    ("label_foo", "bar") ∈ labelledContainer.attributes ∧
    labelledContainer.attributes =
      [("id", "cid"), ("name", "web-1"), ("image", "img"),
       ("label_foo", "bar")] := by
  refine ⟨?_, by decide⟩
  decide

/-- C5 (amended): the attribute projection yields the fixed dimensions
`id`, `name` and `image` (the `health` dimension is attached separately
by the metrics caller), and additionally projects every runtime label
map entry as a `label_`-prefixed key/value pair; no other attributes
occur. -/
theorem attributes_label_projection :
    (∀ (c : ContainerSummary) (k v : String),
      (k, v) ∈ c.labels.getD [] → ("label_" ++ k, v) ∈ c.attributes) ∧
    (∀ (c : ContainerSummary) (kv : String × String), kv ∈ c.attributes →
      kv.1 = "id" ∨ kv.1 = "name" ∨ kv.1 = "image" ∨
      ∃ k v, kv = ("label_" ++ k, v) ∧ (k, v) ∈ c.labels.getD []) := by
  constructor
  · intro c k v h
    obtain ⟨id, names, image, labels⟩ := c
    rcases labels with _ | ls
    · simp at h
    · simp only [Option.getD_some] at h
      simp only [ContainerSummary.attributes, Option.map_some, Option.getD_some]
      exact List.mem_append_right _ (List.mem_map_of_mem _ h)
  · intro c kv h
    obtain ⟨id, names, image, labels⟩ := c
    simp only [ContainerSummary.attributes] at h
    rw [List.mem_append] at h
    rcases h with h | h
    · rcases id with _ | i <;> rcases image with _ | img <;>
        rcases names with _ | ⟨_ | ⟨n, ns⟩⟩ <;>
        simp at h <;> rcases kv with ⟨k1, k2⟩ <;> simp_all <;> tauto
    · rcases labels with _ | ls
      · exact absurd (show kv ∈ ([] : List (String × String)) from h) (by simp)
      · replace h : kv ∈ ls.map (fun kv => ("label_" ++ kv.1, kv.2)) := h
        obtain ⟨⟨k, v⟩, hmem, hEq⟩ := List.mem_map.1 h
        exact Or.inr (Or.inr (Or.inr ⟨k, v, hEq.symm, by simpa using hmem⟩))

/-- C5 witness: the concrete labelled container's runtime entry
`(foo, bar)` really is projected as `label_foo`. -/
theorem attributes_label_projection_witness :
    ("label_" ++ "foo", "bar") ∈ labelledContainer.attributes :=
  attributes_label_projection.1 labelledContainer "foo" "bar" (by decide)

/-- For any resolved classification, the six per-container observations
consist of exactly one gauge at 1 and five at 0. -/
theorem containerObservations_core (c : ContainerSummary) (r : ContainerHealth) :
    (containerObservations c r).length = 6 ∧
    ((containerObservations c r).filter (fun o => o.2 == 1)).length = 1 ∧
    ((containerObservations c r).filter (fun o => o.2 == 0)).length = 5 ∧
    ((containerObservations c r).map (fun o => o.2)).sum = 1 := by
  obtain ⟨s⟩ := r
  rcases s with _ | s
  · simp [containerObservations, ContainerHealth.values]
  · cases s <;> simp [containerObservations, ContainerHealth.values]

/-- C1: whenever the snapshot build succeeds, every enumerated container
gets exactly six boolean gauge observations (one per classification
value), of which exactly one is 1 and the other five are 0, so their sum
is exactly 1. -/
theorem health_gauge_partition (d : Docker)
    (pairs : List (ContainerSummary × ContainerHealth))
    (p : ContainerSummary × ContainerHealth)
    (h1 : buildSnapshot d = Except.ok pairs) (h2 : p ∈ pairs) :
    (containerObservations p.1 p.2).length = 6 ∧
    ((containerObservations p.1 p.2).filter (fun o => o.2 == 1)).length = 1 ∧
    ((containerObservations p.1 p.2).filter (fun o => o.2 == 0)).length = 5 ∧
    ((containerObservations p.1 p.2).map (fun o => o.2)).sum = 1 :=
  containerObservations_core p.1 p.2

/-- C1 witness: a concrete successful snapshot with one healthy
container has exactly one of its six observations at 1. -/
theorem health_gauge_partition_witness :
    buildSnapshot healthyDocker =
      Except.ok [(healthyContainer, ContainerHealth.healthy)] ∧
    ((containerObservations healthyContainer ContainerHealth.healthy).filter
      (fun o => o.2 == 1)).length = 1 :=
  ⟨rfl, (health_gauge_partition healthyDocker
    [(healthyContainer, ContainerHealth.healthy)]
    (healthyContainer, ContainerHealth.healthy) rfl
    (List.mem_singleton.mpr rfl)).2.1⟩

/-- A malformed container anywhere in the enumerated batch makes the
per-container resolution fail as a whole. -/
theorem resolveContainers_error_of_bad (d : Docker) (cs : List ContainerSummary)
    (c : ContainerSummary) (hc : c ∈ cs) (hbad : badContainer d c) :
    ∃ e, resolveContainers d cs = Except.error e := by
  induction cs with
  | nil => cases hc
  | cons hd tl ih =>
    rcases List.mem_cons.1 hc with rfl | hmem
    · rcases hbad with hid | ⟨i, hid, hrest⟩
      · exact ⟨"Failed to get ID from container", by simp [resolveContainers, hid]⟩
      · rcases hrest with ⟨e, hin⟩ | ⟨r, hok, hst⟩
        · exact ⟨e, by simp [resolveContainers, hid, healthState, hin]⟩
        · exact ⟨"Failed to get state from container " ++ i,
            by simp [resolveContainers, hid, healthState, hok, hst]⟩
    · obtain ⟨e, he⟩ := ih hmem
      rcases hid0 : hd.id with _ | i
      · exact ⟨"Failed to get ID from container", by simp [resolveContainers, hid0]⟩
      · rcases hh : healthState d i with e' | h
        · exact ⟨e', by simp [resolveContainers, hid0, hh]⟩
        · exact ⟨e, by simp [resolveContainers, hid0, hh, he]⟩

/-- C3: if any step of the snapshot build fails — enumeration, a missing
id, a failing inspect, or a missing state block — the scrape publishes
zero gauge observations, the error counter increments by exactly 1, and
the restart counters are untouched. -/
theorem scrape_failure_all_or_nothing (d : Docker) (s : Counters)
    (h : snapshotStepFails d) :
    (∃ e, checkHealthState d = Except.error e) ∧
    (collectorEncode d s).1 = [] ∧
    (collectorEncode d s).2.errors = s.errors + 1 ∧
    (collectorEncode d s).2.restarts = s.restarts ∧
    (collectorEncode d s).2.restart_failures = s.restart_failures := by
  have herr : ∃ e, checkHealthState d = Except.error e := by
    rcases h with ⟨e, hl⟩ | ⟨cs, hl, c, hc, hbad⟩
    · exact ⟨e, by simp [checkHealthState, buildSnapshot, hl]⟩
    · obtain ⟨e, he⟩ := resolveContainers_error_of_bad d cs c hc hbad
      exact ⟨e, by simp [checkHealthState, buildSnapshot, hl, he]⟩
  obtain ⟨e, he⟩ := herr
  refine ⟨⟨e, he⟩, ?_, ?_, ?_, ?_⟩ <;> simp [collectorEncode, he]

/-- C3 witness: a failing enumeration publishes nothing and bumps only
the error counter. -/
theorem scrape_failure_all_or_nothing_witness :
    (collectorEncode failingListDocker counters0).1 = [] ∧
    (collectorEncode failingListDocker counters0).2.errors =
      counters0.errors + 1 :=
  ⟨(scrape_failure_all_or_nothing failingListDocker counters0
      (Or.inl ⟨"socket error", rfl⟩)).2.1,
   (scrape_failure_all_or_nothing failingListDocker counters0
      (Or.inl ⟨"socket error", rfl⟩)).2.2.1⟩

/-- C4 counterexample: with two listed unhealthy containers where the
first restart call fails, the tick stops after that one call — the
second container is never attempted and `restart_failures` is not
incremented for the failed container, refuting the claim that the
failure is counted there and that the loop proceeds. -/
theorem restart_failure_aborts_tick_counterexample :
    (restartUnhealthyContainers failingRestartDocker counters0).2.2 =
      [DockerAction.listing unhealthyListOptions, DockerAction.restart "a"] ∧
    (restartUnhealthyContainers failingRestartDocker counters0).2.1.restart_failures
      (ContainerSummaryLabels.ofSummary unhealthyA) = 0 ∧
    DockerAction.restart "b" ∉
      (restartUnhealthyContainers failingRestartDocker counters0).2.2 := by
  refine ⟨rfl, rfl, ?_⟩
  decide

/-- C4 (amended): a failing restart call is not retried within the tick
and is not counted in `restart_failures`; instead the error aborts the
remaining containers of the tick, and the tick-level runner counts the
failure once in the error counter, leaving every other counter
unchanged. -/
theorem restart_failure_aborts_tick (d : Docker) (c : ContainerSummary)
    (rest : List ContainerSummary) (s : Counters) (i : String) (e : String)
    (hl : d.list_containers unhealthyListOptions = Except.ok (c :: rest))
    (hid : c.id = some i)
    (hr : d.restart_container i = Except.error e) :
    runTick d s = ({ s with errors := s.errors + 1 },
      [DockerAction.listing unhealthyListOptions, DockerAction.restart i]) := by
  simp [runTick, restartUnhealthyContainers, hl, restartLoop, hid, hr]

/-- C4 witness: the concrete failing-restart scenario instantiates the
amended behavior. -/
theorem restart_failure_aborts_tick_witness :
    runTick failingRestartDocker counters0 =
      ({ counters0 with errors := counters0.errors + 1 },
       [DockerAction.listing unhealthyListOptions, DockerAction.restart "a"]) :=
  restart_failure_aborts_tick failingRestartDocker unhealthyA [unhealthyB]
    counters0 "a" "restart failed" rfl rfl rfl

/-- C6: a listed container without an id increments `restart_failures`
for its label set, triggers no restart call, and the loop continues with
the remaining containers of the tick. -/
theorem idless_counts_failure_and_continues (d : Docker) (c : ContainerSummary)
    (rest : List ContainerSummary) (s : Counters) (acts : List DockerAction)
    (hid : c.id = none) :
    restartLoop d (c :: rest) s acts =
      restartLoop d rest
        (s.incRestartFailure (ContainerSummaryLabels.ofSummary c)) acts := by
  simp [restartLoop, hid]

/-- C6 witness: the id-less container concretely takes the
failure-counting branch. -/
theorem idless_counts_failure_and_continues_witness :
    restartLoop healthyDocker [idlessContainer] counters0 [] =
      restartLoop healthyDocker []
        (counters0.incRestartFailure
          (ContainerSummaryLabels.ofSummary idlessContainer)) [] :=
  idless_counts_failure_and_continues healthyDocker idlessContainer [] counters0 [] rfl

/-- C7: with no restart interval configured, any number of remediation
ticks performs no remote action at all — no list query, no restart — and
leaves the counters untouched, while the scrape callback behaves exactly
as it would under any configured interval. -/
theorem no_interval_no_remediation (d : Docker) (ticks : Nat) (s : Counters)
    (i : Nat) :
    ({ docker := d, restart_interval := none } : DockerHealthMonitor).run ticks s
      = (s, []) ∧
    ({ docker := d, restart_interval := none } : DockerHealthMonitor).scrape s =
      ({ docker := d, restart_interval := some i } : DockerHealthMonitor).scrape s := by
  constructor
  · cases ticks <;> rfl
  · rfl

/-- C10: every remediation tick's list query carries the include-all
flag together with the server-side health=unhealthy filter, so a
stopped container whose health status is unhealthy is selected as a
restart candidate. -/
theorem unhealthy_listing_includes_stopped (c : DaemonContainer)
    (h1 : c.running = false) (h2 : c.health_status = "unhealthy") :
    unhealthyListOptions.all = true ∧
    unhealthyListOptions.filters = [("health", ["unhealthy"])] ∧
    listSelects unhealthyListOptions c = true ∧
    (∀ (d : Docker) (s : Counters),
      (restartUnhealthyContainers d s).2.2.head? =
        some (DockerAction.listing unhealthyListOptions)) := by
  refine ⟨rfl, rfl, ?_, ?_⟩
  · simp [listSelects, unhealthyListOptions, filterMatches, h2]
  · intro d s
    rcases hl : d.list_containers unhealthyListOptions with e | cs
    · simp [restartUnhealthyContainers, hl]
    · rcases hr : restartLoop d cs s [] with ⟨r, s', acts⟩
      simp [restartUnhealthyContainers, hl, hr]

/-- C10 witness: the concrete stopped unhealthy container is selected by
the remediation list query. -/
theorem unhealthy_listing_includes_stopped_witness :
    listSelects unhealthyListOptions stoppedUnhealthy = true :=
  (unhealthy_listing_includes_stopped stoppedUnhealthy rfl rfl).2.2.1
